import Mathlib

/-
Formal model of the simulation core of the Bzoink top-down shooter
(src/components/GameCanvas.tsx).  JavaScript numbers are modelled by ℚ;
`Math.sqrt` is abstracted as an explicit function argument `sq : ℚ → ℚ`
(theorems either hold for every `sq` or carry the square-root facts they
need as hypotheses); every call to `Math.random()` becomes an explicit
input.  JS non-finite values (NaN / Infinity) arising from division are
modelled with `Option ℚ` where a claim is about them.
-/

/-- Model of the JavaScript expression x || 1 on numbers: the right operand
is taken exactly when x is falsy (0; NaN is out of scope at ℚ). -/
def jsOr1 (x : ℚ) : ℚ := if x = 0 then 1 else x

/-- Model of JavaScript division tracking finiteness: dividing a finite
number by 0 yields a non-finite value (NaN or ±Infinity), modelled none. -/
def jsDiv (a b : ℚ) : Option ℚ := if b = 0 then none else some (a / b)

/-- Multiplication of a possibly non-finite value by a finite one: a
non-finite operand propagates. -/
def jsMulOpt (a : Option ℚ) (b : ℚ) : Option ℚ := a.map (fun x => x * b)

/-- Enemy variant tag (`enemy.type` strings in the source). -/
inductive EnemyType
  | level1
  | level2
  | aggregate
  | stealthSniper
  | other
deriving DecidableEq, Repr

/-- Enemy record: the fields of the pooled enemy objects that the modelled
operations read or write (AI-state fields of the stealth sniper are not
touched by any modelled operation and are omitted). -/
structure Enemy where
  id : ℕ
  x : ℚ
  y : ℚ
  vx : ℚ
  vy : ℚ
  radius : ℚ
  etype : EnemyType
  hp : ℚ
  maxHp : ℚ
  hitShake : ℚ
deriving DecidableEq, Repr

/-- Projectile record (the collision / bounce logic reads these fields). -/
structure Proj where
  x : ℚ
  y : ℚ
  vx : ℚ
  vy : ℚ
  radius : ℚ
  damage : ℚ
  bounces : ℕ
deriving DecidableEq, Repr

/-- Configuration fields consumed by the modelled operations
(GameSettings). -/
structure KillSettings where
  modeStealth : Bool
  enemyDeathParticleMultiplier : ℚ
  perkSpawnChance : ℚ
deriving DecidableEq, Repr

/-- Record of one createExplosion invocation: burst position and requested
particle count (countOverride argument; none means the default count). -/
structure Burst where
  x : ℚ
  y : ℚ
  count : Option ℤ
deriving DecidableEq, Repr

/-- Observable bookkeeping ledger threaded through the kill paths: running
score, kill counter, the list of explosion bursts emitted, the number of
perk-spawn probability rolls performed (calls of Math.random() against
perkSpawnChance) and the number of perks actually spawned. -/
structure Book where
  score : ℤ
  kills : ℕ
  bursts : List Burst
  perkRolls : ℕ
  perksSpawned : ℕ
deriving DecidableEq, Repr

/-- Ledger at the start of a run. -/
def Book.empty : Book := ⟨0, 0, [], 0, 0⟩

/-- getEnemyKillScore: score table by enemy type (source lines 404-412). -/
def getEnemyKillScore (e : Enemy) : ℤ :=
  match e.etype with
  | .level1 => 1
  | .level2 => 3
  | .aggregate => ⌈e.radius / 10⌉
  | .stealthSniper => 2
  | .other => 1

/-- killEnemy (source lines 414-437): awards the type score, increments the
kill counter, emits exactly one explosion burst at the enemy position with
ceil(radius * multiplier * 5) particles, and performs one perk-spawn
probability roll (rand is the Math.random() draw; a perk spawns when it is
below perkSpawnChance).  Removal of the enemy from the pool (the splice) is
performed by each call site on its own list. -/
def killEnemy (s : KillSettings) (e : Enemy) (rand : ℚ) (b : Book) : Book :=
  let particleMultiplier : ℚ := if s.modeStealth then 5 else s.enemyDeathParticleMultiplier
  let finalMultiplier := particleMultiplier * 5
  let particleCount : ℤ := ⌈e.radius * finalMultiplier⌉
  { score := b.score + getEnemyKillScore e
    kills := b.kills + 1
    bursts := b.bursts ++ [⟨e.x, e.y, some particleCount⟩]
    perkRolls := b.perkRolls + 1
    perksSpawned := b.perksSpawned + (if rand < s.perkSpawnChance then 1 else 0) }

/-- inBlast: the per-enemy distance test of the nuke perk,
sqrt((px-ex)^2+(py-ey)^2) < nukeBlastRadius (source lines 362-363). -/
def inBlast (sq : ℚ → ℚ) (blast px py : ℚ) (e : Enemy) : Bool :=
  sq ((px - e.x) ^ 2 + (py - e.y) ^ 2) < blast

/-- Nuke-perk enemy sweep (activatePerk case nuke, source lines 361-372):
filters the enemy pool, and for each enemy inside the blast radius adds its
type score, one kill and one burst of ceil(radius * multiplier) particles
inline — without calling killEnemy, hence without any perk-spawn roll.  The
surrounding shockwave push, rumble sound, player-centred ripple explosion
and screen shake (lines 348-359, 373) do not touch the ledger counters
modelled here. -/
def nukeFilter (s : KillSettings) (sq : ℚ → ℚ) (blast px py : ℚ) :
    List Enemy → Book → List Enemy × Book
  | [], b => ([], b)
  | e :: rest, b =>
    if inBlast sq blast px py e then
      let b2 : Book :=
        { b with
          score := b.score + getEnemyKillScore e
          kills := b.kills + 1
          bursts := b.bursts ++ [⟨e.x, e.y, some ⌈e.radius * s.enemyDeathParticleMultiplier⌉⟩] }
      nukeFilter s sq blast px py rest b2
    else
      let p := nukeFilter s sq blast px py rest b
      (e :: p.1, p.2)

/-- Spawn-ring radius used by spawnEnemy (source line 497):
Math.max(width, height) / 1.5 + 50. -/
def spawnRingRadius (w h : ℚ) : ℚ := max w h / 1.5 + 50

/-- spawnEnemy position (source lines 496-499): player position plus the
ring radius along a random angle; (c, s) stand for (cos angle, sin angle)
of the uniformly random angle. -/
def spawnEnemyPos (w h px py c s : ℚ) : ℚ × ℚ :=
  (px + c * spawnRingRadius w h, py + s * spawnRingRadius w h)

/-- Viewport membership for a point (the canvas covers [0,w] × [0,h]). -/
def onScreen (w h x y : ℚ) : Prop := 0 ≤ x ∧ x ≤ w ∧ 0 ≤ y ∧ y ≤ h

instance (w h x y : ℚ) : Decidable (onScreen w h x y) := by
  unfold onScreen; infer_instance

/-- Player movement speed derivation (source lines 969-980): base speed,
times 1.5 under the speed buff, then times 0.5 under time-slow, then times
0.4 in stealth mode unless shift is held. -/
def playerCurrentSpeed (base : ℚ) (speedBuff timeSlow stealth shiftHeld : Bool) : ℚ :=
  let s1 := if speedBuff then base * 1.5 else base
  let s2 := if timeSlow then s1 * 0.5 else s1
  if stealth && !shiftHeld then s2 * 0.4 else s2

/-- enemySpeedMultiplier (source line 1124): 0.3 under time-slow, else 1. -/
def enemySpeedMultiplier (timeSlow : Bool) : ℚ := if timeSlow then 0.3 else 1.0

/-- Chase velocity of level1/level2 enemies (source lines 1190-1196):
direction to the player normalised by the distance, scaled by enemySpeed
and the time-slow multiplier (when the distance is 0 the velocity is left
unchanged; a pair input stands for the previous velocity). -/
def chaseVel (sq : ℚ → ℚ) (px py enemySpeed : ℚ) (timeSlow : Bool) (e : Enemy) : ℚ × ℚ :=
  let dx := px - e.x
  let dy := py - e.y
  let dist := sq (dx * dx + dy * dy)
  if 0 < dist then
    ((dx / dist) * enemySpeed * enemySpeedMultiplier timeSlow,
     (dy / dist) * enemySpeed * enemySpeedMultiplier timeSlow)
  else (e.vx, e.vy)

/-- Aggregate-enemy velocity (source lines 1178-1187): as chaseVel with an
extra 0.5 factor. -/
def aggregateVel (sq : ℚ → ℚ) (px py enemySpeed : ℚ) (timeSlow : Bool) (e : Enemy) : ℚ × ℚ :=
  let dx := px - e.x
  let dy := py - e.y
  let dist := sq (dx * dx + dy * dy)
  if 0 < dist then
    ((dx / dist) * enemySpeed * 0.5 * enemySpeedMultiplier timeSlow,
     (dy / dist) * enemySpeed * 0.5 * enemySpeedMultiplier timeSlow)
  else (e.vx, e.vy)

/-- Effective enemy spawn interval (source lines 1064-1065): the current
interval, doubled under time-slow. -/
def effectiveSpawnInterval (current : ℚ) (timeSlow : Bool) : ℚ :=
  if timeSlow then current * 2 else current

/-- Weapon tags (activeWeapon / localActiveWeapon strings). -/
inductive Weapon
  | blaster
  | shotgun
  | machinegun
  | nuke
  | sniper
deriving DecidableEq, Repr

/-- Weapon resolution before firing (source lines 1083-1085): the local
override (or menu default), forced to sniper in stealth mode, then forced
to nuke while explosive ammo is active. -/
def resolveWeapon (localW : Weapon) (stealth explosiveAmmo : Bool) : Weapon :=
  let w := if stealth then Weapon.sniper else localW
  if explosiveAmmo then Weapon.nuke else w

/-- Effective fire interval (source lines 1082-1091): base interval, halved
under the fire-rate buff, then /3 for the machinegun, *3 for the shotgun,
replaced by 2000 for the sniper, and finally floored at 400 when explosive
ammo is active or the weapon is the nuke. -/
def effectiveFireRate (base : ℚ) (w : Weapon) (fireBuff explosiveAmmo : Bool) : ℚ :=
  let r1 := if fireBuff then base / 2 else base
  let r2 := if w = Weapon.machinegun then r1 / 3 else r1
  let r3 := if w = Weapon.shotgun then r2 * 3 else r2
  let r4 := if w = Weapon.sniper then (2000 : ℚ) else r3
  if explosiveAmmo || w = Weapon.nuke then max r4 400 else r4

/-- spawnProjectile aim normalisation (source lines 579-584): the vector
from the player to the mouse divided componentwise by its length — with no
guard, so a zero length divides by zero. -/
def spawnProjectileDir (sq : ℚ → ℚ) (mx my px py : ℚ) : Option ℚ × Option ℚ :=
  let dx := mx - px
  let dy := my - py
  let dist := sq (dx * dx + dy * dy)
  (jsDiv dx dist, jsDiv dy dist)

/-- Default-blaster projectile velocity (source lines 669-670): the
normalised direction scaled by projectileSpeed; non-finite components
propagate. -/
def blasterProjVel (sq : ℚ → ℚ) (mx my px py speed : ℚ) : Option ℚ × Option ℚ :=
  let d := spawnProjectileDir sq mx my px py
  (jsMulOpt d.1 speed, jsMulOpt d.2 speed)

/-- createExplosion impact-direction normalisation (source lines 248-250):
the impact velocity divided by (impactSpeed || 1) — the || 1 guard makes
the divisor never zero. -/
def createExplosionNorm (sq : ℚ → ℚ) (ivx ivy : ℚ) : Option ℚ × Option ℚ :=
  let impactSpeed := sq (ivx * ivx + ivy * ivy)
  (jsDiv ivx (jsOr1 impactSpeed), jsDiv ivy (jsOr1 impactSpeed))

/-- Bounce handling at a projectile-enemy contact (source lines 1281-1298),
run after damage is applied and independent of whether the enemy survived:
with bounces left the projectile's counter is incremented, its velocity is
reflected across the contact normal when moving towards the enemy centre
(dot < 0), and it is repositioned just outside the target; with the budget
exhausted (in particular when the configured maximum is 0) the outcome is
none, i.e. removed = true at line 1297. -/
def bounceStep (maxB : ℕ) (sq : ℚ → ℚ) (p : Proj) (ex ey eRadius : ℚ) : Option Proj :=
  let dx := p.x - ex
  let dy := p.y - ey
  let dist := sq (dx * dx + dy * dy)
  if 0 < maxB ∧ p.bounces < maxB then
    let nx := dx / dist
    let ny := dy / dist
    let dot := p.vx * nx + p.vy * ny
    let v2 : ℚ × ℚ := if dot < 0 then (p.vx - 2 * dot * nx, p.vy - 2 * dot * ny) else (p.vx, p.vy)
    let overlap := (eRadius + p.radius) - dist
    some { p with
      bounces := p.bounces + 1
      vx := v2.1
      vy := v2.2
      x := p.x + nx * (overlap + 2)
      y := p.y + ny * (overlap + 2) }
  else none

/-- Standard (non-area) projectile damage applied to the contacted enemy at
index j of the pool (source lines 1265-1278): hp := (hp || 1) - damage;
when the result is ≤ 0 the enemy is removed through killEnemy (which also
does the score / kill / burst / perk-roll bookkeeping), otherwise it gets
hit-stun, a small impulse along the impact angle — (ca, sa) stand for
(cos, sin) of atan2(proj.vy, proj.vx) — and a tiny 3-particle burst at the
projectile position.  The hit sound is outside the ledger. -/
def standardHit (s : KillSettings) (damage projX projY : ℚ) (rand : ℚ)
    (es : List Enemy) (j : ℕ) (ca sa : ℚ) (b : Book) : List Enemy × Book :=
  match es[j]? with
  | none => (es, b)
  | some e =>
    let dmg := jsOr1 damage
    let hp2 := jsOr1 e.hp - dmg
    if hp2 ≤ 0 then
      (es.eraseIdx j, killEnemy s { e with hp := hp2 } rand b)
    else
      (es.set j { e with hp := hp2, hitShake := 5, x := e.x + ca * 5, y := e.y + sa * 5 },
       { b with bursts := b.bursts ++ [⟨projX, projY, some 3⟩] })

/-- Splash sweep of the explosive projectile (source lines 1246-1262):
`enemies = enemies.filter(...)` whose callback, for every enemy within the
fixed 80-pixel blast radius of the impact, applies 10 damage and on death
calls killEnemy — which splices the live array while the filter is walking
it.  The model reproduces the JavaScript Array.filter semantics exactly:
the index k runs from 0 to the captured initial length (the steps fuel);
an index at or past the current length ends the contribution; a killEnemy
splice at the current index shifts the next element into a slot the filter
has already passed, so that element is silently dropped from the result.
rands feeds one Math.random() draw per killEnemy call. -/
def splashLoop (s : KillSettings) (sq : ℚ → ℚ) (projX projY : ℚ) :
    ℕ → ℕ → List Enemy → List Enemy → Book → List ℚ → List Enemy × Book
  | 0, _, _, acc, b, _ => (acc, b)
  | steps + 1, k, l, acc, b, rands =>
    match l[k]? with
    | none => (acc, b)
    | some e =>
      let ex := e.x - projX
      let ey := e.y - projY
      let edist := sq (ex * ex + ey * ey)
      if edist ≤ 80 then
        let hp2 := jsOr1 e.hp - 10
        if hp2 ≤ 0 then
          splashLoop s sq projX projY steps (k + 1) (l.eraseIdx k) acc
            (killEnemy s { e with hp := hp2 } (rands.headD 0) b) rands.tail
        else
          let e2 := { e with
            hp := hp2
            x := e.x + (ex / edist) * 20
            y := e.y + (ey / edist) * 20
            hitShake := 5 }
          splashLoop s sq projX projY steps (k + 1) (l.set k e2) (acc ++ [e2]) b rands
      else
        splashLoop s sq projX projY steps (k + 1) l (acc ++ [e]) b rands

/-- Entry point of the splash sweep: JavaScript filter captures the length
once and starts at index 0 with an empty result. -/
def splashDamage (s : KillSettings) (sq : ℚ → ℚ) (projX projY : ℚ)
    (es : List Enemy) (b : Book) (rands : List ℚ) : List Enemy × Book :=
  splashLoop s sq projX projY es.length 0 es [] b rands

/-- Player fields touched by the modelled operations. -/
structure Player where
  x : ℚ
  y : ℚ
  health : ℚ
  energy : ℚ
deriving DecidableEq, Repr

/-- Outcome of one enemy-player contact resolution. -/
structure ContactOutcome where
  player : Player
  enemy : Option Enemy
  book : Book
  shake : ℚ
  deathTriggered : Bool
deriving Repr

/-- Enemy-player contact resolution for one enemy (source lines 1314-1337):
the hit radius grows by 20 under the shell buff; on contact with the shell
active the enemy is destroyed through killEnemy without hurting the player;
otherwise the player takes 10 damage, the screen shakes, and the enemy is
knocked back 50 pixels along the contact normal — (ca, sa) stand for
(cos, sin) of atan2(dy, dx) — while the player position is untouched; death
is triggered when health drops to 0 or below. -/
def enemyPlayerContact (s : KillSettings) (shakeIntensity playerRadius : ℚ) (shell : Bool)
    (sq : ℚ → ℚ) (pl : Player) (e : Enemy) (ca sa : ℚ) (rand : ℚ) (b : Book) (shake : ℚ) :
    ContactOutcome :=
  let dx := pl.x - e.x
  let dy := pl.y - e.y
  let dist := sq (dx * dx + dy * dy)
  let hitRadius := if shell then playerRadius + 20 else playerRadius
  if dist < hitRadius + e.radius then
    if shell then
      { player := pl, enemy := none, book := killEnemy s e rand b, shake := shake,
        deathTriggered := false }
    else
      let pl2 := { pl with health := pl.health - 10 }
      { player := pl2
        enemy := some { e with x := e.x - ca * 50, y := e.y - sa * 50 }
        book := b
        shake := shakeIntensity
        deathTriggered := pl2.health ≤ 0 }
  else
    { player := pl, enemy := some e, book := b, shake := shake, deathTriggered := false }

/-- Player clamping to the viewport after movement (source lines 1021-1024):
x into [playerRadius, width - playerRadius] and y into
[playerRadius, height - playerRadius]. -/
def clampPlayer (pr w h x y : ℚ) : ℚ × ℚ :=
  (max pr (min (w - pr) x), max pr (min (h - pr) y))

/-- Respawn point scheduled at death (source lines 725-726):
Math.random() * (dimension - 100) + 50 per axis; r1, r2 are the two
Math.random() draws. -/
def respawnPoint (w h r1 r2 : ℚ) : ℚ × ℚ :=
  (r1 * (w - 100) + 50, r2 * (h - 100) + 50)

/-- Particle variant tag: death particles are exempt from life decay and
belong to the death state machine; everything createExplosion spawns is
tagged default. -/
inductive PType
  | default
  | death
deriving DecidableEq, Repr

/-- Particle record. -/
structure Particle where
  id : ℕ
  x : ℚ
  y : ℚ
  vx : ℚ
  vy : ℚ
  life : ℚ
  maxLife : ℚ
  radius : ℚ
  ptype : PType
  formingTargetId : Option ℕ
deriving DecidableEq, Repr

/-- Configuration fields read by createExplosion. -/
structure ExplSettings where
  particleCount : ℕ
  particleSpeed : ℚ
  particleLife : ℚ
  particleSize : ℚ
deriving DecidableEq, Repr

/-- Shockwave push of createExplosion on the particle pool (source lines
276-292): every particle within 300 pixels of the centre (and not closer
than 1 squared pixel) receives a radial impulse with linear falloff plus a
random jitter; one jitter pair is consumed per pushed particle. -/
def pushParticles (sq : ℚ → ℚ) (x y : ℚ) : List Particle → List (ℚ × ℚ) → List Particle
  | [], _ => []
  | p :: rest, jits =>
    let dx := p.x - x
    let dy := p.y - y
    let dist2 := dx * dx + dy * dy
    if dist2 < 300 * 300 ∧ 1 < dist2 then
      let dist := sq dist2
      let force := (800 * (1 - dist / 300)) / dist
      let jit := jits.headD (0, 0)
      { p with vx := p.vx + dx * force + jit.1, vy := p.vy + dy * force + jit.2 } ::
        pushParticles sq x y rest jits.tail
    else
      p :: pushParticles sq x y rest jits

/-- createExplosion (source lines 247-310): spawns count particles of type
default at the burst position (count = countOverride || particleCount, so
the JavaScript-falsy 0 and an absent argument both fall back to the
configured count), each with a random scatter velocity — draws holds the
(cos angle * speed, sin angle * speed) pairs — plus half the normalised
impact velocity; then the shockwave push sweeps the whole pool including
the newcomers.  The grid-ripple part (lines 294-309) only touches grid
nodes and is outside this model.  Returns the pool and the next particle
id. -/
def createExplosion (es : ExplSettings) (sq : ℚ → ℚ) (x y ivx ivy : ℚ)
    (countOverride : Option ℕ) (draws jitters : List (ℚ × ℚ)) (nextId : ℕ)
    (ps : List Particle) : List Particle × ℕ :=
  let impactSpeed := sq (ivx * ivx + ivy * ivy)
  let nVx := ivx / jsOr1 impactSpeed
  let nVy := ivy / jsOr1 impactSpeed
  let count := match countOverride with
    | some c => if c = 0 then es.particleCount else c
    | none => es.particleCount
  let mkNew : ℕ → Particle := fun i =>
    let d := draws.getD i (0, 0)
    { id := nextId + i, x := x, y := y,
      vx := d.1 + nVx * es.particleSpeed * 0.5,
      vy := d.2 + nVy * es.particleSpeed * 0.5,
      life := es.particleLife, maxLife := es.particleLife,
      radius := es.particleSize, ptype := PType.default,
      formingTargetId := none }
  let newPs := (List.range count).map mkNew
  (pushParticles sq x y (ps ++ newPs) jitters, nextId + count)

/-- Death/respawn state record (deathStateRef). -/
structure DeathState where
  active : Bool
  gatherStartTime : ℚ
  respawnX : ℚ
  respawnY : ℚ
deriving DecidableEq, Repr

/-- Simulation state threaded through the death / respawn operations. -/
structure GState where
  player : Player
  score : ℤ
  kills : ℕ
  enemies : List Enemy
  projectiles : List Proj
  particles : List Particle
  death : DeathState
  shake : ℚ
  currentSpawnRate : ℚ
  nextParticleId : ℕ
deriving Repr

/-- triggerDeath (source lines 685-747): reports the final score and kill
count (with the survival time) to the game-over collaborator, then resets
BOTH the running score and the kill counter to zero, restores the spawn
interval and energy, clears the enemy / projectile / perk / letter pools,
records the death state with a gather deadline 5 seconds ahead and a
random respawn point (r1, r2 are the Math.random() draws), appends 100
outward-scattering particles of type death at the player position — draws
holds their velocity pairs — and sets the screen shake to 50.  The
farewell explosion at each cleared enemy and the big shockwave (lines
704-715) only add default-type particles and a shockwave and are not
modelled here.  Returns the new state together with the reported
(score, kills) pair. -/
def triggerDeath (enemySpawnRate w h r1 r2 : ℚ) (draws : List (ℚ × ℚ))
    (timestamp : ℚ) (st : GState) : GState × (ℤ × ℕ) :=
  let reported := (st.score, st.kills)
  let rp := respawnPoint w h r1 r2
  let mkDeath : ℕ → Particle := fun i =>
    let d := draws.getD i (0, 0)
    { id := st.nextParticleId + i, x := st.player.x, y := st.player.y,
      vx := d.1, vy := d.2, life := 6, maxLife := 6, radius := 3,
      ptype := PType.death, formingTargetId := none }
  let deathParticles := (List.range 100).map mkDeath
  ({ st with
      score := 0
      kills := 0
      currentSpawnRate := enemySpawnRate
      player := { st.player with energy := 100 }
      enemies := []
      projectiles := []
      death := { active := true, gatherStartTime := timestamp + 5000,
                 respawnX := rp.1, respawnY := rp.2 }
      particles := st.particles ++ deathParticles
      nextParticleId := st.nextParticleId + 100
      shake := 50 },
   reported)

/-- Death-state branch of the update pass (source lines 947-960): while the
death state is active, once the gather deadline has passed and either all
death particles have reached the respawn point or none remain, the player
is teleported to the respawn point with full health and energy, the score
is zeroed, the death state is deactivated, every death-type particle is
purged, and a respawn explosion of default particles is emitted at the new
player position; otherwise only the shake decays. -/
def deathPhaseStep (maxHealth : ℚ) (es : ExplSettings) (sq : ℚ → ℚ)
    (draws jitters : List (ℚ × ℚ)) (timestamp : ℚ) (allGathered : Bool)
    (activeDeathParticles : ℕ) (st : GState) : GState :=
  if st.death.active then
    if st.death.gatherStartTime < timestamp ∧ (allGathered ∨ activeDeathParticles = 0) then
      let pl2 : Player := { x := st.death.respawnX, y := st.death.respawnY,
                            health := maxHealth, energy := 100 }
      let purged := st.particles.filter (fun p => p.ptype ≠ PType.death)
      let burst := createExplosion es sq pl2.x pl2.y 0 0 none draws jitters st.nextParticleId purged
      { st with
          player := pl2
          score := 0
          death := { st.death with active := false }
          particles := burst.1
          nextParticleId := burst.2
          shake := if 0 < st.shake then st.shake * 0.9 else st.shake }
    else
      { st with shake := if 0 < st.shake then st.shake * 0.9 else st.shake }
  else st

/-- C4 (code_bug): spawnProjectile normalises the player-to-mouse vector
with no zero-length guard, so aiming at the player's own exact position
divides by zero and stores non-finite velocity components in the new
projectile, while createExplosion's (impactSpeed || 1) guard always yields
a finite direction.  The spec requires the guard in both places. -/
theorem spawn_projectile_nan_direction_thm (sq : ℚ → ℚ) (h0 : sq 0 = 0) (mx my : ℚ) :
    spawnProjectileDir sq mx my mx my = (none, none)
    ∧ blasterProjVel sq mx my mx my 1412 = (none, none)
    ∧ ∀ ivx ivy : ℚ,
        (createExplosionNorm sq ivx ivy).1.isSome ∧ (createExplosionNorm sq ivx ivy).2.isSome := by
  have hdir : spawnProjectileDir sq mx my mx my = (none, none) := by
    simp [spawnProjectileDir, jsDiv, h0]
  refine ⟨hdir, ?_, ?_⟩
  · simp [blasterProjVel, hdir, jsMulOpt]
  · intro ivx ivy
    have hne : jsOr1 (sq (ivx * ivx + ivy * ivy)) ≠ 0 := by
      unfold jsOr1
      split <;> simp_all
    constructor <;> simp [createExplosionNorm, jsDiv, hne]

/-- Witness for C4: firing with the mouse exactly on the player at
(100, 100); the aim direction and the blaster velocity are both
non-finite. -/
theorem spawn_projectile_nan_direction_witness :
    id (0 : ℚ) = 0
    ∧ (spawnProjectileDir id 100 100 100 100 = (none, none)
      ∧ blasterProjVel id 100 100 100 100 1412 = (none, none)
      ∧ ∀ ivx ivy : ℚ,
          (createExplosionNorm id ivx ivy).1.isSome ∧ (createExplosionNorm id ivx ivy).2.isSome) :=
  ⟨rfl, spawn_projectile_nan_direction_thm id rfl 100 100⟩

/-- C5 counterexample: on a 1200 × 1200 viewport with the player at
(20, 20) and the random angle whose cosine / sine are 3/5 and 4/5, the
spawn position (530, 700) is inside the viewport, and the ring radius 850
is max(w,h)/1.5 + 50, strictly smaller than the claimed 1.5 × max(w,h). -/
theorem spawn_ring_onscreen_ce :
    spawnRingRadius 1200 1200 = 850
    ∧ (850 : ℚ) < 1.5 * 1200
    ∧ (3 / 5 : ℚ) ^ 2 + (4 / 5 : ℚ) ^ 2 = 1
    ∧ spawnEnemyPos 1200 1200 20 20 (3 / 5) (4 / 5) = (530, 700)
    ∧ onScreen 1200 1200 530 700 := by
  refine ⟨?_, by norm_num, by norm_num, ?_, by norm_num [onScreen]⟩
  · unfold spawnRingRadius; norm_num
  · unfold spawnEnemyPos spawnRingRadius; norm_num

/-- C5 (corrected): every enemy spawn position lies on the ring centred on
the player of radius max(width, height) / 1.5 + 50 (not 1.5 × the larger
dimension, and with no off-screen guarantee): its squared distance from
the player equals the squared ring radius for any unit direction. -/
theorem spawn_ring_radius_thm (w h px py c s : ℚ) (hcs : c ^ 2 + s ^ 2 = 1) :
    ((spawnEnemyPos w h px py c s).1 - px) ^ 2 + ((spawnEnemyPos w h px py c s).2 - py) ^ 2
      = spawnRingRadius w h ^ 2 := by
  have : (px + c * spawnRingRadius w h - px) ^ 2 + (py + s * spawnRingRadius w h - py) ^ 2
      = (c ^ 2 + s ^ 2) * spawnRingRadius w h ^ 2 := by ring
  simpa [spawnEnemyPos, hcs] using this

/-- Witness for C5's amended theorem at a 1000 × 800 viewport, player at
(300, 400), direction (3/5, 4/5). -/
theorem spawn_ring_radius_witness :
    (3 / 5 : ℚ) ^ 2 + (4 / 5 : ℚ) ^ 2 = 1
    ∧ ((spawnEnemyPos 1000 800 300 400 (3 / 5) (4 / 5)).1 - 300) ^ 2
        + ((spawnEnemyPos 1000 800 300 400 (3 / 5) (4 / 5)).2 - 400) ^ 2
      = spawnRingRadius 1000 800 ^ 2 :=
  ⟨by norm_num, spawn_ring_radius_thm 1000 800 300 400 (3 / 5) (4 / 5) (by norm_num)⟩

/-- C6 counterexample: a level1 enemy at (5, 0) chasing a player at the
origin with enemySpeed 100 moves under time-slow with velocity (-30, 0) —
the 0.3 multiplier — not the (-50, 0) that halving would give. -/
theorem time_slow_enemy_multiplier_ce :
    chaseVel (fun q => if q = 25 then 5 else 0) 0 0 100 true
        ⟨0, 5, 0, 0, 0, 9, EnemyType.level1, 2, 2, 0⟩ = (-30, 0)
    ∧ ((-30 : ℚ) ≠ -50) := by
  constructor
  · unfold chaseVel enemySpeedMultiplier
    norm_num
  · norm_num

/-- C6 (corrected): while time-slow is active, chasing (level1/level2) and
aggregate enemy velocities are multiplied by 0.3 (not halved), the
effective spawn interval is doubled, and the player speed is halved,
applied after the speed buff's 1.5 multiplier. -/
theorem time_slow_effects_thm (sq : ℚ → ℚ) (px py es base cur : ℚ) (sb stealth sh : Bool)
    (e : Enemy) (hd : 0 < sq ((px - e.x) * (px - e.x) + (py - e.y) * (py - e.y))) :
    (chaseVel sq px py es true e).1 = 0.3 * (chaseVel sq px py es false e).1
    ∧ (chaseVel sq px py es true e).2 = 0.3 * (chaseVel sq px py es false e).2
    ∧ (aggregateVel sq px py es true e).1 = 0.3 * (aggregateVel sq px py es false e).1
    ∧ (aggregateVel sq px py es true e).2 = 0.3 * (aggregateVel sq px py es false e).2
    ∧ effectiveSpawnInterval cur true = 2 * cur
    ∧ playerCurrentSpeed base sb true stealth sh
        = 0.5 * playerCurrentSpeed base sb false stealth sh
    ∧ playerCurrentSpeed base true true false sh = base * 1.5 * 0.5 := by
  have hmt : enemySpeedMultiplier true = 0.3 := by norm_num [enemySpeedMultiplier]
  have hmf : enemySpeedMultiplier false = 1 := by norm_num [enemySpeedMultiplier]
  refine ⟨?_, ?_, ?_, ?_, ?_, ?_, ?_⟩
  · simp only [chaseVel, hmt, hmf, if_pos hd]; ring
  · simp only [chaseVel, hmt, hmf, if_pos hd]; ring
  · simp only [aggregateVel, hmt, hmf, if_pos hd]; ring
  · simp only [aggregateVel, hmt, hmf, if_pos hd]; ring
  · simp only [effectiveSpawnInterval, if_pos]; ring
  · unfold playerCurrentSpeed
    cases sb <;> cases stealth <;> cases sh <;> simp <;> ring
  · unfold playerCurrentSpeed
    cases sh <;> norm_num

/-- Witness for C6's amended theorem: player at the origin, enemy at
(3, 4), distance 5. -/
theorem time_slow_effects_witness :
    (0 : ℚ) < (fun q : ℚ => if q = 25 then 5 else 0) ((0 - 3) * (0 - 3) + (0 - 4) * (0 - 4))
    ∧ ((chaseVel (fun q : ℚ => if q = 25 then 5 else 0) 0 0 172 true
          ⟨1, 3, 4, 0, 0, 9, EnemyType.level2, 15, 15, 0⟩).1
        = 0.3 * (chaseVel (fun q : ℚ => if q = 25 then 5 else 0) 0 0 172 false
          ⟨1, 3, 4, 0, 0, 9, EnemyType.level2, 15, 15, 0⟩).1
      ∧ (chaseVel (fun q : ℚ => if q = 25 then 5 else 0) 0 0 172 true
          ⟨1, 3, 4, 0, 0, 9, EnemyType.level2, 15, 15, 0⟩).2
        = 0.3 * (chaseVel (fun q : ℚ => if q = 25 then 5 else 0) 0 0 172 false
          ⟨1, 3, 4, 0, 0, 9, EnemyType.level2, 15, 15, 0⟩).2
      ∧ (aggregateVel (fun q : ℚ => if q = 25 then 5 else 0) 0 0 172 true
          ⟨1, 3, 4, 0, 0, 9, EnemyType.level2, 15, 15, 0⟩).1
        = 0.3 * (aggregateVel (fun q : ℚ => if q = 25 then 5 else 0) 0 0 172 false
          ⟨1, 3, 4, 0, 0, 9, EnemyType.level2, 15, 15, 0⟩).1
      ∧ (aggregateVel (fun q : ℚ => if q = 25 then 5 else 0) 0 0 172 true
          ⟨1, 3, 4, 0, 0, 9, EnemyType.level2, 15, 15, 0⟩).2
        = 0.3 * (aggregateVel (fun q : ℚ => if q = 25 then 5 else 0) 0 0 172 false
          ⟨1, 3, 4, 0, 0, 9, EnemyType.level2, 15, 15, 0⟩).2
      ∧ effectiveSpawnInterval 1000 true = 2 * 1000
      ∧ playerCurrentSpeed 450 false true false false
          = 0.5 * playerCurrentSpeed 450 false false false false
      ∧ playerCurrentSpeed 450 true true false false = 450 * 1.5 * 0.5) :=
  ⟨by norm_num,
   time_slow_effects_thm (fun q : ℚ => if q = 25 then 5 else 0) 0 0 172 450 1000 false false false
     ⟨1, 3, 4, 0, 0, 9, EnemyType.level2, 15, 15, 0⟩ (by norm_num)⟩

/-- C7 counterexample: with explosive ammo active the weapon resolves to
the charge/explosive (nuke) weapon, yet with a configured base interval of
1000ms and no fire-rate buff the effective interval is 1000ms, not the
fixed 2000ms the claim assigns to that weapon. -/
theorem fire_rate_charge_weapon_ce :
    resolveWeapon Weapon.blaster false true = Weapon.nuke
    ∧ effectiveFireRate 1000 (resolveWeapon Weapon.blaster false true) false true = 1000
    ∧ ((1000 : ℚ) ≠ 2000) := by
  refine ⟨rfl, by decide, by norm_num⟩

/-- C7 (corrected): the effective fire interval is the configured base,
halved under the fire-rate buff, divided by 3 for the machinegun, tripled
for the shotgun, fixed at 2000ms for the sniper weapon (not the
charge/explosive weapon), set to max(base-after-buff, 400) for the
charge/explosive (nuke) weapon, and never below 400ms while explosive ammo
is active. -/
theorem fire_rate_derivation_thm (base : ℚ) (fb : Bool) :
    effectiveFireRate base Weapon.blaster fb false = (if fb then base / 2 else base)
    ∧ effectiveFireRate base Weapon.machinegun fb false = (if fb then base / 2 else base) / 3
    ∧ effectiveFireRate base Weapon.shotgun fb false = (if fb then base / 2 else base) * 3
    ∧ (∀ ea : Bool, effectiveFireRate base Weapon.sniper fb ea = 2000)
    ∧ effectiveFireRate base Weapon.nuke fb false = max (if fb then base / 2 else base) 400
    ∧ (∀ w : Weapon, 400 ≤ effectiveFireRate base w fb true) := by
  refine ⟨?_, ?_, ?_, ?_, ?_, ?_⟩
  · cases fb <;> simp [effectiveFireRate]
  · cases fb <;> simp [effectiveFireRate]
  · cases fb <;> simp [effectiveFireRate]
  · intro ea
    cases fb <;> cases ea <;> simp [effectiveFireRate] <;> norm_num
  · cases fb <;> simp [effectiveFireRate]
  · intro w
    cases w <;> cases fb <;> simp [effectiveFireRate]

/-- Characterisation of the nuke sweep: survivors are exactly the enemies
outside the blast; the ledger gains the summed type scores, one kill and
one burst per enemy removed, and performs no perk-spawn roll. -/
theorem nukeFilter_spec (s : KillSettings) (sq : ℚ → ℚ) (blast px py : ℚ) :
    ∀ (es : List Enemy) (b : Book),
      (nukeFilter s sq blast px py es b).1
        = es.filter (fun x => !(inBlast sq blast px py x))
      ∧ (nukeFilter s sq blast px py es b).2
        = { score := b.score + ((es.filter (inBlast sq blast px py)).map getEnemyKillScore).sum
            kills := b.kills + (es.filter (inBlast sq blast px py)).length
            bursts := b.bursts ++ (es.filter (inBlast sq blast px py)).map
              (fun x => ⟨x.x, x.y, some ⌈x.radius * s.enemyDeathParticleMultiplier⌉⟩)
            perkRolls := b.perkRolls
            perksSpawned := b.perksSpawned } := by
  intro es
  induction es with
  | nil => intro b; simp [nukeFilter]
  | cons e rest ih =>
    intro b
    by_cases hb : inBlast sq blast px py e
    · simp only [nukeFilter, hb, if_true]
      constructor
      · rw [(ih _).1]
        simp [List.filter_cons, hb]
      · rw [(ih _).2]
        simp [List.filter_cons, hb, add_assoc, List.append_assoc]
        omega
    · simp only [nukeFilter, hb, if_false, Bool.false_eq_true]
      constructor
      · rw [(ih _).1]
        simp [List.filter_cons, hb]
      · rw [(ih _).2]
        simp [List.filter_cons, hb]

/-- C1 counterexample: the nuke perk kills the level1 enemy at (500, 600)
(player at (500, 500), blast radius 400) — the kill counter increases —
yet the ledger records zero perk-spawn rolls, so the nuke path does not
perform the per-kill perk roll the claim requires. -/
theorem nuke_kill_skips_perk_roll :
    ((nukeFilter ⟨false, 1, 0.25⟩ (fun q => if q = 10000 then 100 else 0) 400 500 500
        [⟨0, 500, 600, 0, 0, 9, EnemyType.level1, 2, 2, 0⟩] Book.empty).2.kills = 1)
    ∧ ((nukeFilter ⟨false, 1, 0.25⟩ (fun q => if q = 10000 then 100 else 0) 400 500 500
        [⟨0, 500, 600, 0, 0, 9, EnemyType.level1, 2, 2, 0⟩] Book.empty).2.perkRolls = 0) := by
  have hb : inBlast (fun q => if q = 10000 then 100 else 0) 400 500 500
      ⟨0, 500, 600, 0, 0, 9, EnemyType.level1, 2, 2, 0⟩ = true := by
    norm_num [inBlast]
  constructor <;> simp [nukeFilter, hb, Book.empty]

/-- C1 (corrected): killEnemy — the path shared by direct projectile
kills, explosive splash kills and shell-buff contact kills — adds exactly
the enemy-type score, one kill, one burst and one perk-spawn roll; the
shell contact kill and the direct projectile kill funnel through
killEnemy; the nuke perk performs the same score / kill / burst
bookkeeping per enemy destroyed but no perk-spawn roll. -/
theorem kill_bookkeeping_paths_thm (s : KillSettings) (e : Enemy) (rand : ℚ) (b : Book)
    (sq : ℚ → ℚ) (blast px py si pr : ℚ) (es : List Enemy) (pl : Player)
    (ca sa sh damage projX projY : ℚ) (j : ℕ) :
    ((killEnemy s e rand b).score = b.score + getEnemyKillScore e
      ∧ (killEnemy s e rand b).kills = b.kills + 1
      ∧ (killEnemy s e rand b).bursts.length = b.bursts.length + 1
      ∧ (killEnemy s e rand b).perkRolls = b.perkRolls + 1)
    ∧ ((enemyPlayerContact s si pr true sq pl e ca sa rand b sh).book
        = if sq ((pl.x - e.x) * (pl.x - e.x) + (pl.y - e.y) * (pl.y - e.y)) < pr + 20 + e.radius
          then killEnemy s e rand b else b)
    ∧ (∀ e2, es[j]? = some e2 →
        (standardHit s damage projX projY rand es j ca sa b).2
          = if jsOr1 e2.hp - jsOr1 damage ≤ 0
            then killEnemy s { e2 with hp := jsOr1 e2.hp - jsOr1 damage } rand b
            else { b with bursts := b.bursts ++ [⟨projX, projY, some 3⟩] })
    ∧ ((nukeFilter s sq blast px py es b).1 = es.filter (fun x => !(inBlast sq blast px py x))
      ∧ (nukeFilter s sq blast px py es b).2.score
          = b.score + ((es.filter (inBlast sq blast px py)).map getEnemyKillScore).sum
      ∧ (nukeFilter s sq blast px py es b).2.kills
          = b.kills + (es.filter (inBlast sq blast px py)).length
      ∧ (nukeFilter s sq blast px py es b).2.bursts
          = b.bursts ++ (es.filter (inBlast sq blast px py)).map
              (fun x => ⟨x.x, x.y, some ⌈x.radius * s.enemyDeathParticleMultiplier⌉⟩)
      ∧ (nukeFilter s sq blast px py es b).2.perkRolls = b.perkRolls) := by
  refine ⟨⟨?_, ?_, ?_, ?_⟩, ?_, ?_, ?_⟩
  · simp [killEnemy]
  · simp [killEnemy]
  · simp [killEnemy]
  · simp [killEnemy]
  · by_cases hc : sq ((pl.x - e.x) * (pl.x - e.x) + (pl.y - e.y) * (pl.y - e.y))
        < pr + 20 + e.radius
    · simp [enemyPlayerContact, hc]
    · simp [enemyPlayerContact, hc]
  · intro e2 he2
    by_cases hk : jsOr1 e2.hp - jsOr1 damage ≤ 0
    · simp [standardHit, he2, hk]
    · simp [standardHit, he2, hk]
  · have hs := nukeFilter_spec s sq blast px py es b
    refine ⟨hs.1, ?_, ?_, ?_, ?_⟩ <;> rw [hs.2]

/-- Witness for C1's amended theorem at concrete inputs (non-stealth
settings, level2 enemy for killEnemy and the shell path, a level1 enemy
with 2 hp taking 1 damage for the direct path, nuke sweep over the same
pool). -/
theorem kill_bookkeeping_paths_witness :
    ((killEnemy ⟨false, 1, 0.25⟩ ⟨1, 10, 20, 0, 0, 9, EnemyType.level2, 15, 15, 0⟩ 0.5
          Book.empty).score
        = Book.empty.score + getEnemyKillScore ⟨1, 10, 20, 0, 0, 9, EnemyType.level2, 15, 15, 0⟩
      ∧ (killEnemy ⟨false, 1, 0.25⟩ ⟨1, 10, 20, 0, 0, 9, EnemyType.level2, 15, 15, 0⟩ 0.5
          Book.empty).kills = Book.empty.kills + 1
      ∧ (killEnemy ⟨false, 1, 0.25⟩ ⟨1, 10, 20, 0, 0, 9, EnemyType.level2, 15, 15, 0⟩ 0.5
          Book.empty).bursts.length = Book.empty.bursts.length + 1
      ∧ (killEnemy ⟨false, 1, 0.25⟩ ⟨1, 10, 20, 0, 0, 9, EnemyType.level2, 15, 15, 0⟩ 0.5
          Book.empty).perkRolls = Book.empty.perkRolls + 1)
    ∧ ((enemyPlayerContact ⟨false, 1, 0.25⟩ 50 15 true id ⟨0, 0, 100, 100⟩
          ⟨1, 10, 20, 0, 0, 9, EnemyType.level2, 15, 15, 0⟩ 1 0 0.5 Book.empty 0).book
        = if id ((0 - (10 : ℚ)) * (0 - 10) + (0 - 20) * (0 - 20)) < 15 + 20 + (9 : ℚ)
          then killEnemy ⟨false, 1, 0.25⟩ ⟨1, 10, 20, 0, 0, 9, EnemyType.level2, 15, 15, 0⟩ 0.5
            Book.empty
          else Book.empty)
    ∧ ((standardHit ⟨false, 1, 0.25⟩ 1 5 5 0.5 [⟨2, 7, 8, 0, 0, 9, EnemyType.level1, 2, 2, 0⟩] 0
          1 0 Book.empty).2
        = if jsOr1 (2 : ℚ) - jsOr1 1 ≤ 0
          then killEnemy ⟨false, 1, 0.25⟩
            { (⟨2, 7, 8, 0, 0, 9, EnemyType.level1, 2, 2, 0⟩ : Enemy) with
                hp := jsOr1 (2 : ℚ) - jsOr1 1 } 0.5 Book.empty
          else { Book.empty with bursts := Book.empty.bursts ++ [⟨5, 5, some 3⟩] })
    ∧ ((nukeFilter ⟨false, 1, 0.25⟩ id 400 0 0
          [⟨2, 7, 8, 0, 0, 9, EnemyType.level1, 2, 2, 0⟩] Book.empty).1
        = [⟨2, 7, 8, 0, 0, 9, EnemyType.level1, 2, 2, 0⟩].filter
            (fun x => !(inBlast id 400 0 0 x))
      ∧ (nukeFilter ⟨false, 1, 0.25⟩ id 400 0 0
          [⟨2, 7, 8, 0, 0, 9, EnemyType.level1, 2, 2, 0⟩] Book.empty).2.score
          = Book.empty.score
            + (([⟨2, 7, 8, 0, 0, 9, EnemyType.level1, 2, 2, 0⟩].filter
                (inBlast id 400 0 0)).map getEnemyKillScore).sum
      ∧ (nukeFilter ⟨false, 1, 0.25⟩ id 400 0 0
          [⟨2, 7, 8, 0, 0, 9, EnemyType.level1, 2, 2, 0⟩] Book.empty).2.kills
          = Book.empty.kills
            + ([⟨2, 7, 8, 0, 0, 9, EnemyType.level1, 2, 2, 0⟩].filter (inBlast id 400 0 0)).length
      ∧ (nukeFilter ⟨false, 1, 0.25⟩ id 400 0 0
          [⟨2, 7, 8, 0, 0, 9, EnemyType.level1, 2, 2, 0⟩] Book.empty).2.bursts
          = Book.empty.bursts
            ++ ([⟨2, 7, 8, 0, 0, 9, EnemyType.level1, 2, 2, 0⟩].filter (inBlast id 400 0 0)).map
                (fun x => ⟨x.x, x.y, some ⌈x.radius * (1 : ℚ)⌉⟩)
      ∧ (nukeFilter ⟨false, 1, 0.25⟩ id 400 0 0
          [⟨2, 7, 8, 0, 0, 9, EnemyType.level1, 2, 2, 0⟩] Book.empty).2.perkRolls
          = Book.empty.perkRolls) :=
  have t := kill_bookkeeping_paths_thm ⟨false, 1, 0.25⟩
    ⟨1, 10, 20, 0, 0, 9, EnemyType.level2, 15, 15, 0⟩ 0.5 Book.empty id 400 0 0 50 15
    [⟨2, 7, 8, 0, 0, 9, EnemyType.level1, 2, 2, 0⟩] ⟨0, 0, 100, 100⟩ 1 0 0 1 5 5 0
  ⟨t.1, t.2.1, t.2.2.1 ⟨2, 7, 8, 0, 0, 9, EnemyType.level1, 2, 2, 0⟩ rfl, t.2.2.2⟩

/-- C2 counterexample: triggerDeath on a state with score 5 and 3 kills
leaves both counters at 0 — the kill counter does not retain its value
across the death, and the score is already reset at death trigger, before
any Dying-to-Alive transition. -/
theorem trigger_death_resets_counters_ce :
    ((triggerDeath 1000 800 600 0 0 [] 9000
        { player := ⟨100, 100, 0, 100⟩, score := 5, kills := 3, enemies := [], projectiles := [],
          particles := [], death := ⟨false, 0, 0, 0⟩, shake := 0, currentSpawnRate := 700,
          nextParticleId := 0 }).1.kills = 0)
    ∧ ((triggerDeath 1000 800 600 0 0 [] 9000
        { player := ⟨100, 100, 0, 100⟩, score := 5, kills := 3, enemies := [], projectiles := [],
          particles := [], death := ⟨false, 0, 0, 0⟩, shake := 0, currentSpawnRate := 700,
          nextParticleId := 0 }).1.score = 0)
    ∧ ((3 : ℕ) ≠ 0) ∧ ((5 : ℤ) ≠ 0) :=
  ⟨rfl, rfl, by norm_num, by norm_num⟩

/-- C2 (corrected): triggerDeath reports the pre-death score and kill
count to the game-over collaborator and then resets BOTH to zero; the
Dying-to-Alive respawn transition afterwards zeroes the score again and
leaves the kill counter unchanged — so the respawn transition is not the
only score reset, and kills do not persist across deaths. -/
theorem death_respawn_score_reset_thm (esr w h r1 r2 ts mh : ℚ)
    (draws draws2 jitters : List (ℚ × ℚ)) (ex : ExplSettings) (sq : ℚ → ℚ)
    (allG : Bool) (adp : ℕ) (st : GState) :
    (triggerDeath esr w h r1 r2 draws ts st).2 = (st.score, st.kills)
    ∧ (triggerDeath esr w h r1 r2 draws ts st).1.score = 0
    ∧ (triggerDeath esr w h r1 r2 draws ts st).1.kills = 0
    ∧ (deathPhaseStep mh ex sq draws2 jitters ts allG adp st).score
        = (if st.death.active then
            (if st.death.gatherStartTime < ts ∧ (allG ∨ adp = 0) then 0 else st.score)
           else st.score)
    ∧ (deathPhaseStep mh ex sq draws2 jitters ts allG adp st).kills = st.kills := by
  refine ⟨rfl, rfl, rfl, ?_, ?_⟩
  · by_cases ha : st.death.active
    · by_cases hc : st.death.gatherStartTime < ts ∧ (allG ∨ adp = 0)
      · simp [deathPhaseStep, ha, hc]
      · simp [deathPhaseStep, ha, hc]
    · simp [deathPhaseStep, ha]
  · by_cases ha : st.death.active
    · by_cases hc : st.death.gatherStartTime < ts ∧ (allG ∨ adp = 0)
      · simp [deathPhaseStep, ha, hc]
      · simp [deathPhaseStep, ha, hc]
    · simp [deathPhaseStep, ha]

/-- C10 (confirmed): after the movement clamp the player position lies in
[playerRadius, width - playerRadius] × [playerRadius, height -
playerRadius]; enemy contact never displaces the player (both the shell
branch and the damage branch leave the position untouched); and the
scheduled respawn point also lies inside those bounds whenever the
radius respects the menu bound playerRadius ≤ 50 and the viewport is at
least 100 pixels each way. -/
theorem player_clamped_thm (pr w h x y r1 r2 si : ℚ) (s : KillSettings) (shell : Bool)
    (sq : ℚ → ℚ) (pl : Player) (e : Enemy) (ca sa rand : ℚ) (b : Book) (sh : ℚ)
    (hw : 2 * pr ≤ w) (hh : 2 * pr ≤ h) (hpr : pr ≤ 50)
    (hr1 : 0 ≤ r1) (hr1b : r1 ≤ 1) (hr2 : 0 ≤ r2) (hr2b : r2 ≤ 1)
    (hw100 : 100 ≤ w) (hh100 : 100 ≤ h) :
    (pr ≤ (clampPlayer pr w h x y).1 ∧ (clampPlayer pr w h x y).1 ≤ w - pr
      ∧ pr ≤ (clampPlayer pr w h x y).2 ∧ (clampPlayer pr w h x y).2 ≤ h - pr)
    ∧ ((enemyPlayerContact s si pr shell sq pl e ca sa rand b sh).player.x = pl.x
      ∧ (enemyPlayerContact s si pr shell sq pl e ca sa rand b sh).player.y = pl.y)
    ∧ (pr ≤ (respawnPoint w h r1 r2).1 ∧ (respawnPoint w h r1 r2).1 ≤ w - pr
      ∧ pr ≤ (respawnPoint w h r1 r2).2 ∧ (respawnPoint w h r1 r2).2 ≤ h - pr) := by
  refine ⟨⟨?_, ?_, ?_, ?_⟩, ⟨?_, ?_⟩, ⟨?_, ?_, ?_, ?_⟩⟩
  · simp only [clampPlayer]; exact le_max_left _ _
  · simp only [clampPlayer]; exact max_le (by linarith) (min_le_left _ _)
  · simp only [clampPlayer]; exact le_max_left _ _
  · simp only [clampPlayer]; exact max_le (by linarith) (min_le_left _ _)
  · simp only [enemyPlayerContact]
    split_ifs <;> rfl
  · simp only [enemyPlayerContact]
    split_ifs <;> rfl
  · simp only [respawnPoint]
    have := mul_nonneg hr1 (by linarith : (0 : ℚ) ≤ w - 100)
    linarith
  · simp only [respawnPoint]
    have := mul_le_of_le_one_left (by linarith : (0 : ℚ) ≤ w - 100) hr1b
    linarith
  · simp only [respawnPoint]
    have := mul_nonneg hr2 (by linarith : (0 : ℚ) ≤ h - 100)
    linarith
  · simp only [respawnPoint]
    have := mul_le_of_le_one_left (by linarith : (0 : ℚ) ≤ h - 100) hr2b
    linarith

/-- Witness for C10 at a 800 × 600 viewport with playerRadius 15, a raw
position (-20, 1000) outside the viewport, and both extreme respawn
draws. -/
theorem player_clamped_witness :
    (2 * (15 : ℚ) ≤ 800 ∧ 2 * (15 : ℚ) ≤ 600 ∧ (15 : ℚ) ≤ 50)
    ∧ ((15 : ℚ) ≤ (clampPlayer 15 800 600 (-20) 1000).1
      ∧ (clampPlayer 15 800 600 (-20) 1000).1 ≤ 800 - 15
      ∧ (15 : ℚ) ≤ (clampPlayer 15 800 600 (-20) 1000).2
      ∧ (clampPlayer 15 800 600 (-20) 1000).2 ≤ 600 - 15)
    ∧ ((enemyPlayerContact ⟨false, 1, 0.25⟩ 50 15 false id ⟨5, 5, 100, 100⟩
          ⟨3, 10, 10, 0, 0, 9, EnemyType.level1, 2, 2, 0⟩ 1 0 0.5 Book.empty 0).player.x = 5
      ∧ (enemyPlayerContact ⟨false, 1, 0.25⟩ 50 15 false id ⟨5, 5, 100, 100⟩
          ⟨3, 10, 10, 0, 0, 9, EnemyType.level1, 2, 2, 0⟩ 1 0 0.5 Book.empty 0).player.y = 5)
    ∧ ((15 : ℚ) ≤ (respawnPoint 800 600 0 1).1 ∧ (respawnPoint 800 600 0 1).1 ≤ 800 - 15
      ∧ (15 : ℚ) ≤ (respawnPoint 800 600 0 1).2 ∧ (respawnPoint 800 600 0 1).2 ≤ 600 - 15) :=
  ⟨⟨by norm_num, by norm_num, by norm_num⟩,
   player_clamped_thm 15 800 600 (-20) 1000 0 1 50 ⟨false, 1, 0.25⟩ false id ⟨5, 5, 100, 100⟩
     ⟨3, 10, 10, 0, 0, 9, EnemyType.level1, 2, 2, 0⟩ 1 0 0.5 Book.empty 0
     (by norm_num) (by norm_num) (by norm_num) (by norm_num) (by norm_num) (by norm_num)
     (by norm_num) (by norm_num) (by norm_num)⟩


/-- Helper: with a positive configured maximum and bounces remaining, the
bounce branch is taken and the counter increments. -/
theorem bounceStep_some_of_lt (maxB : ℕ) (sq : ℚ → ℚ) (q : Proj) (ex ey er : ℚ)
    (h0 : 0 < maxB) (hlt : q.bounces < maxB) :
    ∃ q2, bounceStep maxB sq q ex ey er = some q2 ∧ q2.bounces = q.bounces + 1 := by
  simp only [bounceStep]
  rw [if_pos ⟨h0, hlt⟩]
  exact ⟨_, rfl, rfl⟩

/-- C8 (confirmed): with a configured maximum of 0 a projectile is removed
on its first enemy contact (the outcome does not depend on the enemy's
survival, which is not even an input of the bounce branch); with a maximum
of 2 it survives contacts 1 and 2 — on an approaching first contact the
velocity component along the contact normal is reversed and the projectile
is repositioned at distance enemyRadius + projectileRadius + 2 from the
enemy centre, i.e. just outside the target — and it is removed on
contact 3. -/
theorem bounce_budget_thm (sq1 sq2 sq3 : ℚ → ℚ) (p : Proj)
    (e1x e1y r1 e2x e2y r2 e3x e3y r3 : ℚ) (hb : p.bounces = 0)
    (hpos : 0 < sq1 ((p.x - e1x) * (p.x - e1x) + (p.y - e1y) * (p.y - e1y)))
    (hsq : sq1 ((p.x - e1x) * (p.x - e1x) + (p.y - e1y) * (p.y - e1y))
        * sq1 ((p.x - e1x) * (p.x - e1x) + (p.y - e1y) * (p.y - e1y))
        = (p.x - e1x) * (p.x - e1x) + (p.y - e1y) * (p.y - e1y))
    (hdot : p.vx * (p.x - e1x) + p.vy * (p.y - e1y) < 0) :
    bounceStep 0 sq1 p e1x e1y r1 = none
    ∧ ∃ p1 p2,
        bounceStep 2 sq1 p e1x e1y r1 = some p1 ∧ p1.bounces = 1
        ∧ p1.vx * (p.x - e1x) + p1.vy * (p.y - e1y)
            = -(p.vx * (p.x - e1x) + p.vy * (p.y - e1y))
        ∧ (p1.x - e1x) * (p1.x - e1x) + (p1.y - e1y) * (p1.y - e1y)
            = (r1 + p.radius + 2) * (r1 + p.radius + 2)
        ∧ bounceStep 2 sq2 p1 e2x e2y r2 = some p2 ∧ p2.bounces = 2
        ∧ bounceStep 2 sq3 p2 e3x e3y r3 = none := by
  constructor
  · simp [bounceStep]
  · set dx := p.x - e1x with hdx
    set dy := p.y - e1y with hdy
    set dist := sq1 (dx * dx + dy * dy) with hdist
    have hne : dist ≠ 0 := ne_of_gt hpos
    have hdotn : p.vx * (dx / dist) + p.vy * (dy / dist) < 0 := by
      have hrw : p.vx * (dx / dist) + p.vy * (dy / dist)
          = (p.vx * dx + p.vy * dy) / dist := by field_simp
      rw [hrw]
      exact div_neg_of_neg_of_pos hdot hpos
    have h1 : bounceStep 2 sq1 p e1x e1y r1
        = some { p with
            bounces := p.bounces + 1
            vx := p.vx - 2 * (p.vx * (dx / dist) + p.vy * (dy / dist)) * (dx / dist)
            vy := p.vy - 2 * (p.vx * (dx / dist) + p.vy * (dy / dist)) * (dy / dist)
            x := p.x + (dx / dist) * ((r1 + p.radius - dist) + 2)
            y := p.y + (dy / dist) * ((r1 + p.radius - dist) + 2) } := by
      simp only [bounceStep, ← hdx, ← hdy, ← hdist]
      rw [if_pos ⟨by norm_num, by omega⟩, if_pos hdotn]
    obtain ⟨p2, h2, hb2⟩ := bounceStep_some_of_lt 2 sq2
      { p with
        bounces := p.bounces + 1
        vx := p.vx - 2 * (p.vx * (dx / dist) + p.vy * (dy / dist)) * (dx / dist)
        vy := p.vy - 2 * (p.vx * (dx / dist) + p.vy * (dy / dist)) * (dy / dist)
        x := p.x + (dx / dist) * ((r1 + p.radius - dist) + 2)
        y := p.y + (dy / dist) * ((r1 + p.radius - dist) + 2) }
      e2x e2y r2 (by norm_num) (by simp [hb])
    have h3 : bounceStep 2 sq3 p2 e3x e3y r3 = none := by
      have hn : ¬(0 < 2 ∧ p2.bounces < 2) := by
        rintro ⟨-, hlt⟩
        rw [hb2] at hlt
        simp [hb] at hlt
      simp only [bounceStep]
      rw [if_neg hn]
    refine ⟨_, p2, h1, by simp [hb], ?_, ?_, h2, by rw [hb2]; simp [hb], h3⟩
    · show (p.vx - 2 * (p.vx * (dx / dist) + p.vy * (dy / dist)) * (dx / dist)) * dx
          + (p.vy - 2 * (p.vx * (dx / dist) + p.vy * (dy / dist)) * (dy / dist)) * dy
          = -(p.vx * dx + p.vy * dy)
      field_simp
      linear_combination (2 * (p.vx * dx + p.vy * dy)) * hsq
    · show (p.x + (dx / dist) * ((r1 + p.radius - dist) + 2) - e1x)
            * (p.x + (dx / dist) * ((r1 + p.radius - dist) + 2) - e1x)
          + (p.y + (dy / dist) * ((r1 + p.radius - dist) + 2) - e1y)
            * (p.y + (dy / dist) * ((r1 + p.radius - dist) + 2) - e1y)
          = (r1 + p.radius + 2) * (r1 + p.radius + 2)
      have hx : p.x - e1x = dx := rfl
      have hy : p.y - e1y = dy := rfl
      have hgoal : (dx + (dx / dist) * ((r1 + p.radius - dist) + 2))
            * (dx + (dx / dist) * ((r1 + p.radius - dist) + 2))
          + (dy + (dy / dist) * ((r1 + p.radius - dist) + 2))
            * (dy + (dy / dist) * ((r1 + p.radius - dist) + 2))
          = (r1 + p.radius + 2) * (r1 + p.radius + 2) := by
        have key : ∀ a : ℚ, a + (a / dist) * ((r1 + p.radius - dist) + 2)
            = a * (r1 + p.radius + 2) / dist := by
          intro a
          field_simp
          ring
        rw [key dx, key dy]
        have expand : (dx * (r1 + p.radius + 2) / dist) * (dx * (r1 + p.radius + 2) / dist)
            + (dy * (r1 + p.radius + 2) / dist) * (dy * (r1 + p.radius + 2) / dist)
            = (dx * dx + dy * dy)
                * ((r1 + p.radius + 2) * (r1 + p.radius + 2)) / (dist * dist) := by
          field_simp
          ring
        rw [expand, ← hsq, mul_div_cancel_left₀ _ (mul_ne_zero hne hne)]
      calc (p.x + (dx / dist) * ((r1 + p.radius - dist) + 2) - e1x)
            * (p.x + (dx / dist) * ((r1 + p.radius - dist) + 2) - e1x)
          + (p.y + (dy / dist) * ((r1 + p.radius - dist) + 2) - e1y)
            * (p.y + (dy / dist) * ((r1 + p.radius - dist) + 2) - e1y)
          = (dx + (dx / dist) * ((r1 + p.radius - dist) + 2))
              * (dx + (dx / dist) * ((r1 + p.radius - dist) + 2))
            + (dy + (dy / dist) * ((r1 + p.radius - dist) + 2))
              * (dy + (dy / dist) * ((r1 + p.radius - dist) + 2)) := by ring
        _ = (r1 + p.radius + 2) * (r1 + p.radius + 2) := hgoal

/-- Witness for C8: a projectile at the origin moving right with radius 4
and no bounces yet, first contact with an enemy at (3, 4) of radius 9
(distance 5), later contacts at the origin-area enemies. -/
theorem bounce_budget_witness :
    ((0 : ℚ) < (fun q : ℚ => if q = 25 then 5 else 1)
        (((0 : ℚ) - 3) * ((0 : ℚ) - 3) + ((0 : ℚ) - 4) * ((0 : ℚ) - 4))
      ∧ (1 : ℚ) * ((0 : ℚ) - 3) + (0 : ℚ) * ((0 : ℚ) - 4) < 0)
    ∧ (bounceStep 0 (fun q : ℚ => if q = 25 then 5 else 1) ⟨0, 0, 1, 0, 4, 1, 0⟩ 3 4 9 = none
      ∧ ∃ p1 p2,
          bounceStep 2 (fun q : ℚ => if q = 25 then 5 else 1) ⟨0, 0, 1, 0, 4, 1, 0⟩ 3 4 9
              = some p1
          ∧ p1.bounces = 1
          ∧ p1.vx * ((0 : ℚ) - 3) + p1.vy * ((0 : ℚ) - 4)
              = -((1 : ℚ) * ((0 : ℚ) - 3) + (0 : ℚ) * ((0 : ℚ) - 4))
          ∧ (p1.x - 3) * (p1.x - 3) + (p1.y - 4) * (p1.y - 4)
              = ((9 : ℚ) + 4 + 2) * ((9 : ℚ) + 4 + 2)
          ∧ bounceStep 2 id p1 0 0 9 = some p2 ∧ p2.bounces = 2
          ∧ bounceStep 2 id p2 0 0 9 = none) :=
  ⟨⟨by norm_num, by norm_num⟩,
   bounce_budget_thm (fun q : ℚ => if q = 25 then 5 else 1) id id ⟨0, 0, 1, 0, 4, 1, 0⟩
     3 4 9 0 0 9 0 0 9 rfl (by norm_num) (by norm_num) (by norm_num)⟩

/-- Helper: the shockwave push of createExplosion only changes particle
velocities — every particle of the pushed pool has the type of some pool
member. -/
theorem pushParticles_ptype (sq : ℚ → ℚ) (x y : ℚ) :
    ∀ (ps : List Particle) (jits : List (ℚ × ℚ)) (p : Particle),
      p ∈ pushParticles sq x y ps jits → ∃ q ∈ ps, p.ptype = q.ptype := by
  intro ps
  induction ps with
  | nil =>
    intro jits p hp
    simp [pushParticles] at hp
  | cons a rest ih =>
    intro jits p hp
    simp only [pushParticles] at hp
    split_ifs at hp with hc
    · rcases List.mem_cons.mp hp with h | h
      · exact ⟨a, List.mem_cons_self a rest, by rw [h]⟩
      · obtain ⟨q, hq, hpt⟩ := ih _ p h
        exact ⟨q, List.mem_cons_of_mem _ hq, hpt⟩
    · rcases List.mem_cons.mp hp with h | h
      · exact ⟨a, List.mem_cons_self a rest, by rw [h]⟩
      · obtain ⟨q, hq, hpt⟩ := ih _ p h
        exact ⟨q, List.mem_cons_of_mem _ hq, hpt⟩

/-- Helper: createExplosion never introduces a death-type particle — every
particle it spawns is tagged default, and the push phase keeps types. -/
theorem createExplosion_no_death (es : ExplSettings) (sq : ℚ → ℚ) (x y ivx ivy : ℚ)
    (co : Option ℕ) (draws jitters : List (ℚ × ℚ)) (nid : ℕ) (ps : List Particle)
    (hps : ∀ p ∈ ps, p.ptype ≠ PType.death) :
    ∀ p ∈ (createExplosion es sq x y ivx ivy co draws jitters nid ps).1,
      p.ptype ≠ PType.death := by
  intro p hp
  simp only [createExplosion] at hp
  obtain ⟨q, hq, hpt⟩ := pushParticles_ptype sq x y _ _ p hp
  rcases List.mem_append.mp hq with hmem | hmem
  · rw [hpt]
    exact hps q hmem
  · obtain ⟨i, _, hi⟩ := List.mem_map.mp hmem
    rw [hpt, ← hi]
    simp

/-- C9 (confirmed): on the Dying-to-Alive transition (death state active,
gather deadline passed, all death particles gathered or none left) the
player is placed exactly at the scheduled respawn point with health equal
to the configured maximum and energy 100, the score is 0, the death state
is deactivated, and no particle of type death remains in the pool. -/
theorem respawn_invariant_thm (mh : ℚ) (ex : ExplSettings) (sq : ℚ → ℚ)
    (draws jitters : List (ℚ × ℚ)) (ts : ℚ) (allG : Bool) (adp : ℕ) (st : GState)
    (hact : st.death.active = true) (hgather : st.death.gatherStartTime < ts)
    (hcond : allG = true ∨ adp = 0) :
    (deathPhaseStep mh ex sq draws jitters ts allG adp st).player.x = st.death.respawnX
    ∧ (deathPhaseStep mh ex sq draws jitters ts allG adp st).player.y = st.death.respawnY
    ∧ (deathPhaseStep mh ex sq draws jitters ts allG adp st).player.health = mh
    ∧ (deathPhaseStep mh ex sq draws jitters ts allG adp st).player.energy = 100
    ∧ (deathPhaseStep mh ex sq draws jitters ts allG adp st).score = 0
    ∧ (deathPhaseStep mh ex sq draws jitters ts allG adp st).death.active = false
    ∧ ∀ p ∈ (deathPhaseStep mh ex sq draws jitters ts allG adp st).particles,
        p.ptype ≠ PType.death := by
  have hc : st.death.gatherStartTime < ts ∧ ((allG : Prop) ∨ adp = 0) := by
    refine ⟨hgather, ?_⟩
    rcases hcond with h | h
    · exact Or.inl (by simp [h])
    · exact Or.inr h
  have hstep : deathPhaseStep mh ex sq draws jitters ts allG adp st
      = { st with
          player := { x := st.death.respawnX, y := st.death.respawnY,
                      health := mh, energy := 100 }
          score := 0
          death := { st.death with active := false }
          particles := (createExplosion ex sq st.death.respawnX st.death.respawnY 0 0 none
            draws jitters st.nextParticleId
            (st.particles.filter (fun p => p.ptype ≠ PType.death))).1
          nextParticleId := (createExplosion ex sq st.death.respawnX st.death.respawnY 0 0 none
            draws jitters st.nextParticleId
            (st.particles.filter (fun p => p.ptype ≠ PType.death))).2
          shake := if 0 < st.shake then st.shake * 0.9 else st.shake } := by
    simp only [deathPhaseStep, hact, if_true]
    rw [if_pos hc]
  rw [hstep]
  refine ⟨rfl, rfl, rfl, rfl, rfl, rfl, ?_⟩
  show ∀ p ∈ (createExplosion ex sq st.death.respawnX st.death.respawnY 0 0 none
      draws jitters st.nextParticleId
      (st.particles.filter (fun p => p.ptype ≠ PType.death))).1, p.ptype ≠ PType.death
  apply createExplosion_no_death
  intro p hp
  have := List.of_mem_filter hp
  simpa using this

/-- Witness for C9: a state mid-death with one death particle and one
default particle, gather deadline 1000 already passed at timestamp 2000,
all particles gathered. -/
theorem respawn_invariant_witness :
    (({ player := ⟨7, 8, 0, 100⟩, score := 4, kills := 2, enemies := [], projectiles := [],
        particles := [⟨0, 7, 8, 0, 0, 6, 6, 3, PType.death, none⟩,
                      ⟨1, 9, 9, 0, 0, 1, 30, 2, PType.default, none⟩],
        death := ⟨true, 1000, 200, 300⟩, shake := 0, currentSpawnRate := 1000,
        nextParticleId := 2 } : GState).death.active = true)
    ∧ ((deathPhaseStep 100 ⟨2, 400, 30, 2⟩ id [] [] 2000 true 1
          { player := ⟨7, 8, 0, 100⟩, score := 4, kills := 2, enemies := [], projectiles := [],
            particles := [⟨0, 7, 8, 0, 0, 6, 6, 3, PType.death, none⟩,
                          ⟨1, 9, 9, 0, 0, 1, 30, 2, PType.default, none⟩],
            death := ⟨true, 1000, 200, 300⟩, shake := 0, currentSpawnRate := 1000,
            nextParticleId := 2 }).player.x = 200
      ∧ (deathPhaseStep 100 ⟨2, 400, 30, 2⟩ id [] [] 2000 true 1
          { player := ⟨7, 8, 0, 100⟩, score := 4, kills := 2, enemies := [], projectiles := [],
            particles := [⟨0, 7, 8, 0, 0, 6, 6, 3, PType.death, none⟩,
                          ⟨1, 9, 9, 0, 0, 1, 30, 2, PType.default, none⟩],
            death := ⟨true, 1000, 200, 300⟩, shake := 0, currentSpawnRate := 1000,
            nextParticleId := 2 }).player.y = 300
      ∧ (deathPhaseStep 100 ⟨2, 400, 30, 2⟩ id [] [] 2000 true 1
          { player := ⟨7, 8, 0, 100⟩, score := 4, kills := 2, enemies := [], projectiles := [],
            particles := [⟨0, 7, 8, 0, 0, 6, 6, 3, PType.death, none⟩,
                          ⟨1, 9, 9, 0, 0, 1, 30, 2, PType.default, none⟩],
            death := ⟨true, 1000, 200, 300⟩, shake := 0, currentSpawnRate := 1000,
            nextParticleId := 2 }).player.health = 100
      ∧ (deathPhaseStep 100 ⟨2, 400, 30, 2⟩ id [] [] 2000 true 1
          { player := ⟨7, 8, 0, 100⟩, score := 4, kills := 2, enemies := [], projectiles := [],
            particles := [⟨0, 7, 8, 0, 0, 6, 6, 3, PType.death, none⟩,
                          ⟨1, 9, 9, 0, 0, 1, 30, 2, PType.default, none⟩],
            death := ⟨true, 1000, 200, 300⟩, shake := 0, currentSpawnRate := 1000,
            nextParticleId := 2 }).player.energy = 100
      ∧ (deathPhaseStep 100 ⟨2, 400, 30, 2⟩ id [] [] 2000 true 1
          { player := ⟨7, 8, 0, 100⟩, score := 4, kills := 2, enemies := [], projectiles := [],
            particles := [⟨0, 7, 8, 0, 0, 6, 6, 3, PType.death, none⟩,
                          ⟨1, 9, 9, 0, 0, 1, 30, 2, PType.default, none⟩],
            death := ⟨true, 1000, 200, 300⟩, shake := 0, currentSpawnRate := 1000,
            nextParticleId := 2 }).score = 0
      ∧ (deathPhaseStep 100 ⟨2, 400, 30, 2⟩ id [] [] 2000 true 1
          { player := ⟨7, 8, 0, 100⟩, score := 4, kills := 2, enemies := [], projectiles := [],
            particles := [⟨0, 7, 8, 0, 0, 6, 6, 3, PType.death, none⟩,
                          ⟨1, 9, 9, 0, 0, 1, 30, 2, PType.default, none⟩],
            death := ⟨true, 1000, 200, 300⟩, shake := 0, currentSpawnRate := 1000,
            nextParticleId := 2 }).death.active = false
      ∧ ∀ p ∈ (deathPhaseStep 100 ⟨2, 400, 30, 2⟩ id [] [] 2000 true 1
          { player := ⟨7, 8, 0, 100⟩, score := 4, kills := 2, enemies := [], projectiles := [],
            particles := [⟨0, 7, 8, 0, 0, 6, 6, 3, PType.death, none⟩,
                          ⟨1, 9, 9, 0, 0, 1, 30, 2, PType.default, none⟩],
            death := ⟨true, 1000, 200, 300⟩, shake := 0, currentSpawnRate := 1000,
            nextParticleId := 2 }).particles, p.ptype ≠ PType.death) :=
  ⟨rfl,
   respawn_invariant_thm 100 ⟨2, 400, 30, 2⟩ id [] [] 2000 true 1
     { player := ⟨7, 8, 0, 100⟩, score := 4, kills := 2, enemies := [], projectiles := [],
       particles := [⟨0, 7, 8, 0, 0, 6, 6, 3, PType.death, none⟩,
                     ⟨1, 9, 9, 0, 0, 1, 30, 2, PType.default, none⟩],
       death := ⟨true, 1000, 200, 300⟩, shake := 0, currentSpawnRate := 1000,
       nextParticleId := 2 } rfl (by norm_num) (Or.inl rfl)⟩

/-- Helper: the splash sweep preserves the hp invariant — every enemy in
its result either survived with positive hp bounded by maxHp or was
already sound in the untouched part of the pool. -/
theorem splashLoop_inv (s : KillSettings) (sq : ℚ → ℚ) (projX projY : ℚ) :
    ∀ (steps k : ℕ) (l acc : List Enemy) (b : Book) (rands : List ℚ),
      (∀ e ∈ l, 0 < e.hp ∧ e.hp ≤ e.maxHp) → (∀ e ∈ acc, 0 < e.hp ∧ e.hp ≤ e.maxHp) →
      ∀ e ∈ (splashLoop s sq projX projY steps k l acc b rands).1,
        0 < e.hp ∧ e.hp ≤ e.maxHp := by
  intro steps
  induction steps with
  | zero =>
    intro k l acc b rands hl hacc
    simpa [splashLoop] using hacc
  | succ n ih =>
    intro k l acc b rands hl hacc
    cases hk : l[k]? with
    | none =>
      simp only [splashLoop, hk]
      exact hacc
    | some e =>
      have he : e ∈ l := List.getElem?_mem hk
      have hP := hl e he
      by_cases hin : sq ((e.x - projX) * (e.x - projX) + (e.y - projY) * (e.y - projY)) ≤ 80
      · by_cases hkill : jsOr1 e.hp - 10 ≤ 0
        · simp only [splashLoop, hk, hin, hkill, if_true, if_pos]
          apply ih
          · intro e2 he2
            exact hl e2 ((List.eraseIdx_sublist l k).mem he2)
          · exact hacc
        · simp only [splashLoop, hk, if_pos hin, if_neg hkill]
          apply ih
          · intro e2 he2
            rcases List.mem_or_eq_of_mem_set he2 with h | h
            · exact hl e2 h
            · have hhp : jsOr1 e.hp = e.hp := by
                unfold jsOr1
                rw [if_neg (ne_of_gt hP.1)]
              subst h
              constructor
              · show (0 : ℚ) < jsOr1 e.hp - 10
                linarith [not_le.mp hkill]
              · show jsOr1 e.hp - 10 ≤ e.maxHp
                rw [hhp]
                linarith [hP.2]
          · intro e2 he2
            rcases List.mem_append.mp he2 with h | h
            · exact hacc e2 h
            · have h2 : e2 = { e with
                  hp := jsOr1 e.hp - 10
                  x := e.x + (e.x - projX) / sq ((e.x - projX) * (e.x - projX)
                    + (e.y - projY) * (e.y - projY)) * 20
                  y := e.y + (e.y - projY) / sq ((e.x - projX) * (e.x - projX)
                    + (e.y - projY) * (e.y - projY)) * 20
                  hitShake := 5 } := by simpa using h
              have hhp : jsOr1 e.hp = e.hp := by
                unfold jsOr1
                rw [if_neg (ne_of_gt hP.1)]
              subst h2
              constructor
              · show (0 : ℚ) < jsOr1 e.hp - 10
                linarith [not_le.mp hkill]
              · show jsOr1 e.hp - 10 ≤ e.maxHp
                rw [hhp]
                linarith [hP.2]
      · simp only [splashLoop, hk, if_neg hin]
        apply ih
        · exact hl
        · intro e2 he2
          rcases List.mem_append.mp he2 with h | h
          · exact hacc e2 h
          · have h2 : e2 = e := by simpa using h
            subst h2
            exact hP

/-- Helper: every removal the splash sweep performs for hp exhaustion runs
killEnemy, so the kill counter, the perk-roll counter and the burst count
advance in lockstep. -/
theorem splashLoop_book (s : KillSettings) (sq : ℚ → ℚ) (projX projY : ℚ) :
    ∀ (steps k : ℕ) (l acc : List Enemy) (b : Book) (rands : List ℚ),
      ∃ n, (splashLoop s sq projX projY steps k l acc b rands).2.kills = b.kills + n
        ∧ (splashLoop s sq projX projY steps k l acc b rands).2.perkRolls = b.perkRolls + n
        ∧ (splashLoop s sq projX projY steps k l acc b rands).2.bursts.length
            = b.bursts.length + n := by
  intro steps
  induction steps with
  | zero =>
    intro k l acc b rands
    exact ⟨0, by simp [splashLoop]⟩
  | succ n ih =>
    intro k l acc b rands
    cases hk : l[k]? with
    | none =>
      refine ⟨0, ?_⟩
      simp only [splashLoop, hk]
      simp
    | some e =>
      by_cases hin : sq ((e.x - projX) * (e.x - projX) + (e.y - projY) * (e.y - projY)) ≤ 80
      · by_cases hkill : jsOr1 e.hp - 10 ≤ 0
        · simp only [splashLoop, hk, if_pos hin, if_pos hkill]
          obtain ⟨m, h1, h2, h3⟩ := ih (k + 1) (l.eraseIdx k) acc
            (killEnemy s { e with hp := jsOr1 e.hp - 10 } (rands.headD 0) b) rands.tail
          refine ⟨m + 1, ?_, ?_, ?_⟩
          · rw [h1]; simp [killEnemy]; omega
          · rw [h2]; simp [killEnemy]; omega
          · rw [h3]; simp [killEnemy]; omega
        · simp only [splashLoop, hk, if_pos hin, if_neg hkill]
          exact ih _ _ _ _ _
      · simp only [splashLoop, hk, if_neg hin]
        exact ih _ _ _ _ _

/-- C3 (confirmed): starting from a pool where every enemy satisfies
0 < hp ≤ maxHp and with a non-negative projectile damage, both damage
paths preserve the invariant — after a standard hit and after a full
splash sweep every pooled enemy still has 0 < hp ≤ maxHp, so no
zero-or-negative-hp enemy survives the tick; an enemy whose hp is
exhausted by a standard hit is removed by the killEnemy path (the pool
loses exactly the contacted index and the ledger is exactly killEnemy's);
and in the splash sweep the kill counter, perk-roll counter and burst
count advance in lockstep, one of each per hp-exhausted enemy removed,
never by effect-free filtering. -/
theorem hp_invariant_thm (s : KillSettings) (sq : ℚ → ℚ)
    (damage projX projY rand ca sa : ℚ) (es : List Enemy) (j : ℕ) (b : Book) (rands : List ℚ)
    (hinv : ∀ e ∈ es, 0 < e.hp ∧ e.hp ≤ e.maxHp) (hd : 0 ≤ damage) :
    (∀ e ∈ (standardHit s damage projX projY rand es j ca sa b).1, 0 < e.hp ∧ e.hp ≤ e.maxHp)
    ∧ (∀ e2, es[j]? = some e2 → jsOr1 e2.hp - jsOr1 damage ≤ 0 →
        (standardHit s damage projX projY rand es j ca sa b).1 = es.eraseIdx j
        ∧ (standardHit s damage projX projY rand es j ca sa b).2
            = killEnemy s { e2 with hp := jsOr1 e2.hp - jsOr1 damage } rand b)
    ∧ (∀ e ∈ (splashDamage s sq projX projY es b rands).1, 0 < e.hp ∧ e.hp ≤ e.maxHp)
    ∧ (∃ n, (splashDamage s sq projX projY es b rands).2.kills = b.kills + n
        ∧ (splashDamage s sq projX projY es b rands).2.perkRolls = b.perkRolls + n
        ∧ (splashDamage s sq projX projY es b rands).2.bursts.length
            = b.bursts.length + n) := by
  have hdmg : 0 < jsOr1 damage := by
    unfold jsOr1
    split
    · norm_num
    · rcases lt_or_eq_of_le hd with h | h
      · exact h
      · simp_all
  refine ⟨?_, ?_, ?_, ?_⟩
  · cases hj : es[j]? with
    | none => simpa [standardHit, hj] using hinv
    | some e =>
      have he : e ∈ es := List.getElem?_mem hj
      have hP := hinv e he
      have hhp : jsOr1 e.hp = e.hp := by
        unfold jsOr1
        rw [if_neg (ne_of_gt hP.1)]
      by_cases hkill : jsOr1 e.hp - jsOr1 damage ≤ 0
      · simp only [standardHit, hj, if_pos hkill]
        intro e2 he2
        exact hinv e2 ((List.eraseIdx_sublist es j).mem he2)
      · simp only [standardHit, hj, if_neg hkill]
        intro e2 he2
        rcases List.mem_or_eq_of_mem_set he2 with h | h
        · exact hinv e2 h
        · subst h
          constructor
          · show (0 : ℚ) < jsOr1 e.hp - jsOr1 damage
            linarith [not_le.mp hkill]
          · show jsOr1 e.hp - jsOr1 damage ≤ e.maxHp
            rw [hhp]
            linarith [hP.2, hdmg]
  · intro e2 he2 hkill
    constructor
    · simp [standardHit, he2, hkill]
    · simp [standardHit, he2, hkill]
  · exact splashLoop_inv s sq projX projY es.length 0 es [] b rands hinv (by simp)
  · exact splashLoop_book s sq projX projY es.length 0 es [] b rands

/-- Witness for C3: a pool of two sound enemies (2 hp and 15 hp), a
standard hit of damage 1 at index 0 and a splash sweep at the same
projectile position. -/
theorem hp_invariant_witness :
    ((∀ e ∈ [(⟨0, 7, 8, 0, 0, 9, EnemyType.level1, 2, 2, 0⟩ : Enemy),
              ⟨1, 300, 300, 0, 0, 13, EnemyType.level2, 15, 15, 0⟩],
        0 < e.hp ∧ e.hp ≤ e.maxHp) ∧ (0 : ℚ) ≤ 1)
    ∧ (∀ e ∈ (standardHit ⟨false, 1, 0.25⟩ 1 7 8 0.5
          [⟨0, 7, 8, 0, 0, 9, EnemyType.level1, 2, 2, 0⟩,
           ⟨1, 300, 300, 0, 0, 13, EnemyType.level2, 15, 15, 0⟩] 0 1 0 Book.empty).1,
        0 < e.hp ∧ e.hp ≤ e.maxHp)
    ∧ (∃ n, (splashDamage ⟨false, 1, 0.25⟩ id 7 8
          [⟨0, 7, 8, 0, 0, 9, EnemyType.level1, 2, 2, 0⟩,
           ⟨1, 300, 300, 0, 0, 13, EnemyType.level2, 15, 15, 0⟩] Book.empty [0.5]).2.kills
          = Book.empty.kills + n
        ∧ (splashDamage ⟨false, 1, 0.25⟩ id 7 8
          [⟨0, 7, 8, 0, 0, 9, EnemyType.level1, 2, 2, 0⟩,
           ⟨1, 300, 300, 0, 0, 13, EnemyType.level2, 15, 15, 0⟩] Book.empty [0.5]).2.perkRolls
          = Book.empty.perkRolls + n
        ∧ (splashDamage ⟨false, 1, 0.25⟩ id 7 8
          [⟨0, 7, 8, 0, 0, 9, EnemyType.level1, 2, 2, 0⟩,
           ⟨1, 300, 300, 0, 0, 13, EnemyType.level2, 15, 15, 0⟩] Book.empty
          [0.5]).2.bursts.length = Book.empty.bursts.length + n) :=
  ⟨⟨by decide, by norm_num⟩,
   (hp_invariant_thm ⟨false, 1, 0.25⟩ id 1 7 8 0.5 1 0
      [⟨0, 7, 8, 0, 0, 9, EnemyType.level1, 2, 2, 0⟩,
       ⟨1, 300, 300, 0, 0, 13, EnemyType.level2, 15, 15, 0⟩] 0 Book.empty [0.5]
      (by decide) (by norm_num)).1,
   (hp_invariant_thm ⟨false, 1, 0.25⟩ id 1 7 8 0.5 1 0
      [⟨0, 7, 8, 0, 0, 9, EnemyType.level1, 2, 2, 0⟩,
       ⟨1, 300, 300, 0, 0, 13, EnemyType.level2, 15, 15, 0⟩] 0 Book.empty [0.5]
      (by decide) (by norm_num)).2.2.2⟩
